import Mathlib

/-!
Verification of the build-orchestration layer of `setup.py` (qulacs-osaka).

The embedding below translates the build logic of `setup.py` into pure Lean
definitions:

* `get_n_cpus` embeds `_get_n_cpus` (lines 13-32);
* `base_cmake_args` and `generate_args` embed `CMakeBuild._generate_args`
  (lines 99-143);
* `resolve_opt_flags`, `extend_cmake_args` and `build_extension` embed
  `CMakeBuild.build_extension` (lines 65-97);
* `CMakeBuild_run` embeds `CMakeBuild.run` (lines 53-63).

Interactions with the operating system are made explicit parameters:

* `subprocess.check_output` for the CPU probe is a function
  `List String → ProcOutcome` giving, for each command line, the outcome the
  OS would produce (success with captured output, `PermissionError`,
  `FileNotFoundError`, or `CalledProcessError` for a non-zero exit);
* the exit codes of the two `subprocess.check_call` invocations (configure
  step and build step) are carried per target;
* the process environment is an explicit record of the environment variables
  the code reads (`os.getenv`), with `none` meaning "unset".

A Python value of type `Optional[str]` is `Option String` (`none` = `None`);
Python string truthiness is `pyTruthy`.  Exceptions escaping a function are
an `Except` error result; a raised exception aborts the remaining work
exactly as in Python.
-/

/-- Outcome of one `subprocess.check_output` invocation: captured stdout on
success, or the exception class it raises (`PermissionError`,
`FileNotFoundError`, or `CalledProcessError` carrying the non-zero exit
code). -/
inductive ProcOutcome where
  | success (output : String)
  | permissionError
  | fileNotFound
  | calledProcessError (code : Int)
deriving DecidableEq, Repr

/-- An exception escaping the build code: a `RuntimeError` raised by the
code itself, or an uncaught subprocess exception propagating through. -/
inductive PyErr where
  | runtimeError (msg : String)
  | uncaught (e : ProcOutcome)
deriving DecidableEq, Repr

/-- Python truthiness of an `Optional[str]` value: `None` and `""` are
falsy, every other string is truthy. -/
def pyTruthy : Option String → Bool
  | none => false
  | some s => s != ""

/-- ASCII whitespace stripped by Python's `bytes.strip()`. -/
def wsChar (c : Char) : Bool :=
  c == ' ' || c == '\t' || c == '\n' || c == '\r' || c == '\x0b' || c == '\x0c'

/-- Python `.strip()`: drop leading and trailing ASCII whitespace. -/
def pyStrip (s : String) : String :=
  String.mk (((s.data.dropWhile wsChar).reverse.dropWhile wsChar).reverse)

/-- Python `", ".join(names)`. -/
def joinComma : List String → String
  | [] => ""
  | [x] => x
  | x :: xs => x ++ ", " ++ joinComma xs

/-- Python `os.path.join(a, b)` on a POSIX-style path. -/
def joinPath (a b : String) : String := a ++ "/" ++ b

/-- Python `str.upper()` (the code only applies it to the ASCII strings
"Debug"/"Release"). -/
def strUpper (s : String) : String := String.mk (s.data.map Char.toUpper)

/-- The command line `_get_n_cpus` builds for a given `platform.system()`
value (lines 19-23 of `setup.py`): `["nproc"]` on Linux,
`["sysctl", "-n", "hw.ncpu"]` on Darwin, and the empty command name
`[""]` otherwise. -/
def cpu_command (platform_name : String) : List String :=
  if platform_name = "Linux" then ["nproc"]
  else if platform_name = "Darwin" then ["sysctl", "-n", "hw.ncpu"]
  else [""]

/-- Embeds `_get_n_cpus` (lines 13-32 of `setup.py`).  It invokes the
platform CPU-count utility and returns the stripped output; the
`try/except PermissionError` catches only `PermissionError` (yielding the
empty string, Python's "absent" encoding here); any other exception from
`subprocess.check_output` — `FileNotFoundError` when the utility is
missing, `CalledProcessError` on a non-zero exit — propagates to the
caller, which we record as an `Except.error`. -/
def get_n_cpus (platform_name : String) (check_output : List String → ProcOutcome) :
    Except ProcOutcome String :=
  match check_output (cpu_command platform_name) with
  | ProcOutcome.success out => Except.ok (pyStrip out)
  | ProcOutcome.permissionError => Except.ok ""
  | e => Except.error e

/-- The environment variables read by `setup.py`; `none` means the variable
is unset in `os.environ`. -/
structure Env where
  qulacs_opt_flags : Option String
  use_gpu : Option String
  use_omp : Option String
  c_compiler : Option String
  cxx_compiler : Option String

/-- Host facts read by the code: `platform.system()`, `sys.maxsize`,
`sys.executable`, `os.getcwd()`, and the behaviour of
`subprocess.check_output` for the CPU probe. -/
structure Host where
  platform_system : String
  sys_maxsize : Nat
  sys_executable : String
  cwd : String
  probe : List String → ProcOutcome

/-- One `CMakeExtension` target together with the data the build of that
target depends on: `extdir` is
`os.path.abspath(os.path.dirname(self.get_ext_fullpath(ext.name)))`, and
`configure_exit` / `build_exit` are the exit codes the two
`subprocess.check_call` steps would receive for this target. -/
structure Target where
  name : String
  sourcedir : String
  extdir : String
  configure_exit : Int
  build_exit : Int

/-- The mutable state of the `CMakeBuild` command object that the modelled
methods read: `self.opt_flags` (the `--opt-flags` option, `None` when not
given), `self.debug`, and `self.extensions`. -/
structure CMakeBuildSelf where
  opt_flags : Option String
  debug : Bool
  extensions : List Target

/-- Embeds lines 116 of `setup.py`:
`cfg = "Debug" if self.debug else "Release"`. -/
def build_config_name (debug : Bool) : String :=
  if debug then "Debug" else "Release"

/-- Embeds lines 100-114 of `_generate_args`: the fixed cmake arguments
emitted for every platform. -/
def base_cmake_args (host : Host) (extdir : String) : List String :=
  ["-DCMAKE_ARCHIVE_OUTPUT_DIRECTORY=" ++ joinPath host.cwd "lib",
   "-DCMAKE_LIBRARY_OUTPUT_DIRECTORY=" ++ extdir,
   "-DCMAKE_RUNTIME_OUTPUT_DIRECTORY=" ++ joinPath host.cwd "bin",
   "-DPYTHON_EXECUTABLE=" ++ host.sys_executable,
   "-DPYTHON_SETUP_FLAG:STR=Yes",
   "-DUSE_GPU:STR=No"]

/-- Embeds `CMakeBuild._generate_args` (lines 99-143 of `setup.py`),
returning `(build_args, cmake_args)` as the Python method does.  On
Windows the per-configuration output-directory flags, the optional
`-A x64` pair (when `sys.maxsize > 2**32`) and the `-- /m` build arguments
are appended.  Otherwise the compilers are resolved by
`os.getenv("C_COMPILER", "gcc")` / `os.getenv("CXX_COMPILER", "g++")`
(values that are never `None` because the default is a string); the
`if gcc is None or gxx is None` guard of lines 130-134 is kept verbatim;
then `_get_n_cpus` is invoked — an exception from it propagates out of the
method, discarding the argument lists, exactly as in Python. -/
def generate_args (host : Host) (env : Env) (self : CMakeBuildSelf) (extdir : String) :
    Except PyErr (List String × List String) :=
  let cfg := build_config_name self.debug
  if host.platform_system = "Windows" then
    Except.ok (["--config", cfg] ++ ["--", "/m"],
      base_cmake_args host extdir ++
      ["-DCMAKE_LIBRARY_OUTPUT_DIRECTORY_" ++ strUpper cfg ++ "=" ++ extdir,
       "-DCMAKE_RUNTIME_OUTPUT_DIRECTORY_" ++ strUpper cfg ++ "=" ++ extdir] ++
      (if 2 ^ 32 < host.sys_maxsize then ["-A", "x64"] else []))
  else
    let gcc : Option String := some (env.c_compiler.getD "gcc")
    let gxx : Option String := some (env.cxx_compiler.getD "g++")
    if gcc = none ∨ gxx = none then
      Except.error (PyErr.runtimeError
        ("gcc/g++ must be installed to build the following extensions: " ++
          joinComma (self.extensions.map Target.name)))
    else
      match get_n_cpus host.platform_system host.probe with
      | Except.error e => Except.error (PyErr.uncaught e)
      | Except.ok n_cpus =>
          Except.ok (["--config", cfg] ++ ["--", "-j" ++ n_cpus],
            base_cmake_args host extdir ++
            ["-DCMAKE_C_COMPILER=" ++ gcc.getD "",
             "-DCMAKE_CXX_COMPILER=" ++ gxx.getD "",
             "-DCMAKE_BUILD_TYPE=" ++ cfg])

/-- Embeds lines 68-73 of `build_extension`: the resolved optimization
flags — `self.opt_flags` when it `is not None`, else the environment value
when truthy, else `None`. -/
def resolve_opt_flags (self : CMakeBuildSelf) (env : Env) : Option String :=
  if self.opt_flags ≠ none then self.opt_flags
  else if pyTruthy env.qulacs_opt_flags then env.qulacs_opt_flags
  else none

/-- Embeds lines 68-81 of `build_extension`: the three conditional
`cmake_args += [...]` appends for `OPT_FLAGS`, `USE_GPU` and `USE_OMP`,
performed in that order after `_generate_args` returned `cmake_args`. -/
def extend_cmake_args (self : CMakeBuildSelf) (env : Env) (cmake_args : List String) :
    List String :=
  cmake_args ++
  (if pyTruthy (resolve_opt_flags self env) then
      ["-DOPT_FLAGS=" ++ (resolve_opt_flags self env).getD ""] else []) ++
  (if pyTruthy env.use_gpu then
      ["-DUSE_GPU:STR=" ++ env.use_gpu.getD ""] else []) ++
  (if pyTruthy env.use_omp then
      ["-DUSE_OMP:STR=" ++ env.use_omp.getD ""] else [])

/-- One external build-tool subprocess recorded by the orchestration: the
configure-step or build-step `check_call`, with its full command line. -/
inductive Step where
  | configure (cmd : List String)
  | build (cmd : List String)
deriving DecidableEq, Repr

/-- Whether a recorded step is a build-step invocation. -/
def Step.isBuild : Step → Bool
  | Step.configure _ => false
  | Step.build _ => true

/-- Embeds `CMakeBuild.build_extension` (lines 65-97 of `setup.py`) for one
target.  Returns the configure/build subprocesses actually spawned, in
order, together with the method's result: `_generate_args` is called
first (an exception from it spawns nothing), the cmake arguments are
extended by `extend_cmake_args`, then
`subprocess.check_call(["cmake", ext.sourcedir] + cmake_args)` runs —
raising `CalledProcessError` on a non-zero exit, in which case the second
`check_call(["cmake", "--build", ".", "--target", "python"] + build_args)`
is never reached. -/
def build_extension (host : Host) (env : Env) (self : CMakeBuildSelf) (t : Target) :
    List Step × Except PyErr Unit :=
  match generate_args host env self t.extdir with
  | Except.error e => ([], Except.error e)
  | Except.ok (build_args, cmake_args0) =>
      let cmake_args := extend_cmake_args self env cmake_args0
      let configure_cmd := ["cmake", t.sourcedir] ++ cmake_args
      let build_cmd := ["cmake", "--build", ".", "--target", "python"] ++ build_args
      if t.configure_exit ≠ 0 then
        ([Step.configure configure_cmd],
         Except.error (PyErr.uncaught (ProcOutcome.calledProcessError t.configure_exit)))
      else if t.build_exit ≠ 0 then
        ([Step.configure configure_cmd, Step.build build_cmd],
         Except.error (PyErr.uncaught (ProcOutcome.calledProcessError t.build_exit)))
      else
        ([Step.configure configure_cmd, Step.build build_cmd], Except.ok ())

/-- The `for ext in self.extensions: self.build_extension(ext)` loop of
`CMakeBuild.run` (lines 62-63): targets are built sequentially and an
exception from one target aborts the loop. -/
def run_targets (host : Host) (env : Env) (self : CMakeBuildSelf) :
    List Target → List Step × Except PyErr Unit
  | [] => ([], Except.ok ())
  | t :: ts =>
      match build_extension host env self t with
      | (steps, Except.error e) => (steps, Except.error e)
      | (steps, Except.ok _) =>
          let rest := run_targets host env self ts
          (steps ++ rest.1, rest.2)

/-- The diagnostic message of `CMakeBuild.run` lines 57-60. -/
def cmake_missing_msg (self : CMakeBuildSelf) : String :=
  "CMake must be installed to build the following extensions: " ++
    joinComma (self.extensions.map Target.name)

/-- Embeds `CMakeBuild.run` (lines 53-63 of `setup.py`).  `tool` is the
outcome of `subprocess.check_output(["cmake", "--version"])`: on success
every extension is built in order; on an `OSError`
(`FileNotFoundError` / `PermissionError` — cmake not present or not
executable) the `except OSError` branch raises a `RuntimeError` naming
every pending extension before any target is touched; a
`CalledProcessError` (non-zero exit of the version probe) is not an
`OSError` and propagates uncaught — also before any target is touched. -/
def CMakeBuild_run (tool : ProcOutcome) (host : Host) (env : Env) (self : CMakeBuildSelf) :
    List Step × Except PyErr Unit :=
  match tool with
  | ProcOutcome.success _ => run_targets host env self self.extensions
  | ProcOutcome.fileNotFound =>
      ([], Except.error (PyErr.runtimeError (cmake_missing_msg self)))
  | ProcOutcome.permissionError =>
      ([], Except.error (PyErr.runtimeError (cmake_missing_msg self)))
  | ProcOutcome.calledProcessError c =>
      ([], Except.error (PyErr.uncaught (ProcOutcome.calledProcessError c)))

/-- An argument token carries a given configuration key when the key string
is an initial segment of the token (e.g. key `"-DUSE_GPU:STR="`). -/
def hasKey (key arg : String) : Bool :=
  arg.data.take key.data.length == key.data

/-- Number of tokens in an argument list carrying a given configuration
key. -/
def countKey (key : String) (args : List String) : Nat :=
  (args.filter (fun a => hasKey key a)).length


/-! ### Generic lemmas about `hasKey` and `countKey` -/

theorem hasKey_false_of_take_ne (key h t : String) (m : Nat)
    (h1 : m ≤ key.data.length) (h2 : m ≤ h.data.length)
    (hne : h.data.take m ≠ key.data.take m) : hasKey key (h ++ t) = false := by
  unfold hasKey
  rw [String.data_append]
  rw [show ∀ b : Bool, b = false ↔ ¬(b = true) from fun b => by cases b <;> simp]
  intro hb
  have heq := eq_of_beq hb
  apply hne
  have h3 := congrArg (List.take m) heq
  rw [List.take_take, Nat.min_eq_left h1, List.take_append_of_le_length h2] at h3
  exact h3

theorem hasKey_self_append (k t : String) : hasKey k (k ++ t) = true := by
  unfold hasKey
  rw [String.data_append, List.take_left]
  exact beq_self_eq_true _

theorem countKey_nil (k : String) : countKey k [] = 0 := rfl

theorem countKey_append (k : String) (l1 l2 : List String) :
    countKey k (l1 ++ l2) = countKey k l1 + countKey k l2 := by
  simp [countKey, List.filter_append]

theorem countKey_cons (k a : String) (l : List String) :
    countKey k (a :: l) = (if hasKey k a then 1 else 0) + countKey k l := by
  unfold countKey
  rw [List.filter_cons]
  split
  · simp [Nat.add_comm]
  · simp

theorem hasKey_append_ne2 (key h t : String)
    (h1 : 2 ≤ key.data.length) (h2 : 2 ≤ h.data.length)
    (hne : h.data.take 2 ≠ key.data.take 2) : hasKey key (h ++ t) = false :=
  hasKey_false_of_take_ne key h t 2 h1 h2 hne

theorem hasKey_append_ne3 (key h t : String)
    (h1 : 3 ≤ key.data.length) (h2 : 3 ≤ h.data.length)
    (hne : h.data.take 3 ≠ key.data.take 3) : hasKey key (h ++ t) = false :=
  hasKey_false_of_take_ne key h t 3 h1 h2 hne

theorem hasKey_append_ne7 (key h t : String)
    (h1 : 7 ≤ key.data.length) (h2 : 7 ≤ h.data.length)
    (hne : h.data.take 7 ≠ key.data.take 7) : hasKey key (h ++ t) = false :=
  hasKey_false_of_take_ne key h t 7 h1 h2 hne

/-! ### The `USE_GPU` key against each kind of emitted token -/

@[simp] theorem gpuKey_archive (d : String) :
    hasKey "-DUSE_GPU:STR=" ("-DCMAKE_ARCHIVE_OUTPUT_DIRECTORY=" ++ d) = false :=
  hasKey_append_ne3 _ _ _ (by decide) (by decide) (by decide)

@[simp] theorem gpuKey_library (d : String) :
    hasKey "-DUSE_GPU:STR=" ("-DCMAKE_LIBRARY_OUTPUT_DIRECTORY=" ++ d) = false :=
  hasKey_append_ne3 _ _ _ (by decide) (by decide) (by decide)

@[simp] theorem gpuKey_runtime (d : String) :
    hasKey "-DUSE_GPU:STR=" ("-DCMAKE_RUNTIME_OUTPUT_DIRECTORY=" ++ d) = false :=
  hasKey_append_ne3 _ _ _ (by decide) (by decide) (by decide)

@[simp] theorem gpuKey_pyexe (d : String) :
    hasKey "-DUSE_GPU:STR=" ("-DPYTHON_EXECUTABLE=" ++ d) = false :=
  hasKey_append_ne3 _ _ _ (by decide) (by decide) (by decide)

@[simp] theorem gpuKey_setup :
    hasKey "-DUSE_GPU:STR=" "-DPYTHON_SETUP_FLAG:STR=Yes" = false := by decide

@[simp] theorem gpuKey_default :
    hasKey "-DUSE_GPU:STR=" "-DUSE_GPU:STR=No" = true := by decide

@[simp] theorem gpuKey_winlib (d : String) :
    hasKey "-DUSE_GPU:STR=" ("-DCMAKE_LIBRARY_OUTPUT_DIRECTORY_" ++ d) = false :=
  hasKey_append_ne3 _ _ _ (by decide) (by decide) (by decide)

@[simp] theorem gpuKey_winrt (d : String) :
    hasKey "-DUSE_GPU:STR=" ("-DCMAKE_RUNTIME_OUTPUT_DIRECTORY_" ++ d) = false :=
  hasKey_append_ne3 _ _ _ (by decide) (by decide) (by decide)

@[simp] theorem gpuKey_archFlag : hasKey "-DUSE_GPU:STR=" "-A" = false := by decide

@[simp] theorem gpuKey_archVal : hasKey "-DUSE_GPU:STR=" "x64" = false := by decide

@[simp] theorem gpuKey_cc (d : String) :
    hasKey "-DUSE_GPU:STR=" ("-DCMAKE_C_COMPILER=" ++ d) = false :=
  hasKey_append_ne3 _ _ _ (by decide) (by decide) (by decide)

@[simp] theorem gpuKey_cxx (d : String) :
    hasKey "-DUSE_GPU:STR=" ("-DCMAKE_CXX_COMPILER=" ++ d) = false :=
  hasKey_append_ne3 _ _ _ (by decide) (by decide) (by decide)

@[simp] theorem gpuKey_buildType (d : String) :
    hasKey "-DUSE_GPU:STR=" ("-DCMAKE_BUILD_TYPE=" ++ d) = false :=
  hasKey_append_ne3 _ _ _ (by decide) (by decide) (by decide)

@[simp] theorem gpuKey_optFlag (d : String) :
    hasKey "-DUSE_GPU:STR=" ("-DOPT_FLAGS=" ++ d) = false :=
  hasKey_append_ne3 _ _ _ (by decide) (by decide) (by decide)

@[simp] theorem gpuKey_ompFlag (d : String) :
    hasKey "-DUSE_GPU:STR=" ("-DUSE_OMP:STR=" ++ d) = false :=
  hasKey_append_ne7 _ _ _ (by decide) (by decide) (by decide)

@[simp] theorem gpuKey_gpuFlag (d : String) :
    hasKey "-DUSE_GPU:STR=" ("-DUSE_GPU:STR=" ++ d) = true :=
  hasKey_self_append _ _

theorem countKey_gpu_base (host : Host) (extdir : String) :
    countKey "-DUSE_GPU:STR=" (base_cmake_args host extdir) = 1 := by
  simp [base_cmake_args, countKey_cons, countKey_nil]

/-! ### The `OPT_FLAGS` key against each kind of emitted token -/

@[simp] theorem optKey_archive (d : String) :
    hasKey "-DOPT_FLAGS=" ("-DCMAKE_ARCHIVE_OUTPUT_DIRECTORY=" ++ d) = false :=
  hasKey_append_ne3 _ _ _ (by decide) (by decide) (by decide)

@[simp] theorem optKey_library (d : String) :
    hasKey "-DOPT_FLAGS=" ("-DCMAKE_LIBRARY_OUTPUT_DIRECTORY=" ++ d) = false :=
  hasKey_append_ne3 _ _ _ (by decide) (by decide) (by decide)

@[simp] theorem optKey_runtime (d : String) :
    hasKey "-DOPT_FLAGS=" ("-DCMAKE_RUNTIME_OUTPUT_DIRECTORY=" ++ d) = false :=
  hasKey_append_ne3 _ _ _ (by decide) (by decide) (by decide)

@[simp] theorem optKey_pyexe (d : String) :
    hasKey "-DOPT_FLAGS=" ("-DPYTHON_EXECUTABLE=" ++ d) = false :=
  hasKey_append_ne3 _ _ _ (by decide) (by decide) (by decide)

@[simp] theorem optKey_setup :
    hasKey "-DOPT_FLAGS=" "-DPYTHON_SETUP_FLAG:STR=Yes" = false := by decide

@[simp] theorem optKey_default :
    hasKey "-DOPT_FLAGS=" "-DUSE_GPU:STR=No" = false := by decide

@[simp] theorem optKey_winlib (d : String) :
    hasKey "-DOPT_FLAGS=" ("-DCMAKE_LIBRARY_OUTPUT_DIRECTORY_" ++ d) = false :=
  hasKey_append_ne3 _ _ _ (by decide) (by decide) (by decide)

@[simp] theorem optKey_winrt (d : String) :
    hasKey "-DOPT_FLAGS=" ("-DCMAKE_RUNTIME_OUTPUT_DIRECTORY_" ++ d) = false :=
  hasKey_append_ne3 _ _ _ (by decide) (by decide) (by decide)

@[simp] theorem optKey_archFlag : hasKey "-DOPT_FLAGS=" "-A" = false := by decide

@[simp] theorem optKey_archVal : hasKey "-DOPT_FLAGS=" "x64" = false := by decide

@[simp] theorem optKey_cc (d : String) :
    hasKey "-DOPT_FLAGS=" ("-DCMAKE_C_COMPILER=" ++ d) = false :=
  hasKey_append_ne3 _ _ _ (by decide) (by decide) (by decide)

@[simp] theorem optKey_cxx (d : String) :
    hasKey "-DOPT_FLAGS=" ("-DCMAKE_CXX_COMPILER=" ++ d) = false :=
  hasKey_append_ne3 _ _ _ (by decide) (by decide) (by decide)

@[simp] theorem optKey_buildType (d : String) :
    hasKey "-DOPT_FLAGS=" ("-DCMAKE_BUILD_TYPE=" ++ d) = false :=
  hasKey_append_ne3 _ _ _ (by decide) (by decide) (by decide)

@[simp] theorem optKey_optFlag (d : String) :
    hasKey "-DOPT_FLAGS=" ("-DOPT_FLAGS=" ++ d) = true :=
  hasKey_self_append _ _

@[simp] theorem optKey_gpuFlag (d : String) :
    hasKey "-DOPT_FLAGS=" ("-DUSE_GPU:STR=" ++ d) = false :=
  hasKey_append_ne3 _ _ _ (by decide) (by decide) (by decide)

@[simp] theorem optKey_ompFlag (d : String) :
    hasKey "-DOPT_FLAGS=" ("-DUSE_OMP:STR=" ++ d) = false :=
  hasKey_append_ne3 _ _ _ (by decide) (by decide) (by decide)

theorem countKey_opt_base (host : Host) (extdir : String) :
    countKey "-DOPT_FLAGS=" (base_cmake_args host extdir) = 0 := by
  simp [base_cmake_args, countKey_cons, countKey_nil]

/-! ### The `-A` architecture key against each kind of emitted token -/

@[simp] theorem archKey_archive (d : String) :
    hasKey "-A" ("-DCMAKE_ARCHIVE_OUTPUT_DIRECTORY=" ++ d) = false :=
  hasKey_append_ne2 _ _ _ (by decide) (by decide) (by decide)

@[simp] theorem archKey_library (d : String) :
    hasKey "-A" ("-DCMAKE_LIBRARY_OUTPUT_DIRECTORY=" ++ d) = false :=
  hasKey_append_ne2 _ _ _ (by decide) (by decide) (by decide)

@[simp] theorem archKey_runtime (d : String) :
    hasKey "-A" ("-DCMAKE_RUNTIME_OUTPUT_DIRECTORY=" ++ d) = false :=
  hasKey_append_ne2 _ _ _ (by decide) (by decide) (by decide)

@[simp] theorem archKey_pyexe (d : String) :
    hasKey "-A" ("-DPYTHON_EXECUTABLE=" ++ d) = false :=
  hasKey_append_ne2 _ _ _ (by decide) (by decide) (by decide)

@[simp] theorem archKey_setup : hasKey "-A" "-DPYTHON_SETUP_FLAG:STR=Yes" = false := by decide

@[simp] theorem archKey_default : hasKey "-A" "-DUSE_GPU:STR=No" = false := by decide

@[simp] theorem archKey_winlib (d : String) :
    hasKey "-A" ("-DCMAKE_LIBRARY_OUTPUT_DIRECTORY_" ++ d) = false :=
  hasKey_append_ne2 _ _ _ (by decide) (by decide) (by decide)

@[simp] theorem archKey_winrt (d : String) :
    hasKey "-A" ("-DCMAKE_RUNTIME_OUTPUT_DIRECTORY_" ++ d) = false :=
  hasKey_append_ne2 _ _ _ (by decide) (by decide) (by decide)

@[simp] theorem archKey_archFlag : hasKey "-A" "-A" = true := by decide

@[simp] theorem archKey_archVal : hasKey "-A" "x64" = false := by decide

@[simp] theorem archKey_cc (d : String) :
    hasKey "-A" ("-DCMAKE_C_COMPILER=" ++ d) = false :=
  hasKey_append_ne2 _ _ _ (by decide) (by decide) (by decide)

@[simp] theorem archKey_cxx (d : String) :
    hasKey "-A" ("-DCMAKE_CXX_COMPILER=" ++ d) = false :=
  hasKey_append_ne2 _ _ _ (by decide) (by decide) (by decide)

@[simp] theorem archKey_buildType (d : String) :
    hasKey "-A" ("-DCMAKE_BUILD_TYPE=" ++ d) = false :=
  hasKey_append_ne2 _ _ _ (by decide) (by decide) (by decide)

@[simp] theorem archKey_optFlag (d : String) :
    hasKey "-A" ("-DOPT_FLAGS=" ++ d) = false :=
  hasKey_append_ne2 _ _ _ (by decide) (by decide) (by decide)

@[simp] theorem archKey_gpuFlag (d : String) :
    hasKey "-A" ("-DUSE_GPU:STR=" ++ d) = false :=
  hasKey_append_ne2 _ _ _ (by decide) (by decide) (by decide)

@[simp] theorem archKey_ompFlag (d : String) :
    hasKey "-A" ("-DUSE_OMP:STR=" ++ d) = false :=
  hasKey_append_ne2 _ _ _ (by decide) (by decide) (by decide)

theorem countKey_arch_base (host : Host) (extdir : String) :
    countKey "-A" (base_cmake_args host extdir) = 0 := by
  simp [base_cmake_args, countKey_cons, countKey_nil]

/-! ### Shape of the `_generate_args` result per platform branch -/

theorem generate_args_windows (host : Host) (env : Env) (self : CMakeBuildSelf)
    (extdir : String) (hw : host.platform_system = "Windows") :
    generate_args host env self extdir =
      Except.ok (["--config", build_config_name self.debug, "--", "/m"],
        base_cmake_args host extdir ++
        ["-DCMAKE_LIBRARY_OUTPUT_DIRECTORY_" ++ strUpper (build_config_name self.debug) ++
           "=" ++ extdir,
         "-DCMAKE_RUNTIME_OUTPUT_DIRECTORY_" ++ strUpper (build_config_name self.debug) ++
           "=" ++ extdir] ++
        (if 2 ^ 32 < host.sys_maxsize then ["-A", "x64"] else [])) := by
  simp only [generate_args]
  rw [if_pos hw]
  rfl

theorem generate_args_posix_ok (host : Host) (env : Env) (self : CMakeBuildSelf)
    (extdir n_cpus : String) (hw : ¬host.platform_system = "Windows")
    (hn : get_n_cpus host.platform_system host.probe = Except.ok n_cpus) :
    generate_args host env self extdir =
      Except.ok (["--config", build_config_name self.debug, "--", "-j" ++ n_cpus],
        base_cmake_args host extdir ++
        ["-DCMAKE_C_COMPILER=" ++ env.c_compiler.getD "gcc",
         "-DCMAKE_CXX_COMPILER=" ++ env.cxx_compiler.getD "g++",
         "-DCMAKE_BUILD_TYPE=" ++ build_config_name self.debug]) := by
  simp only [generate_args]
  rw [if_neg hw, if_neg (by simp), hn]
  rfl

theorem generate_args_posix_err (host : Host) (env : Env) (self : CMakeBuildSelf)
    (extdir : String) (e : ProcOutcome) (hw : ¬host.platform_system = "Windows")
    (hn : get_n_cpus host.platform_system host.probe = Except.error e) :
    generate_args host env self extdir = Except.error (PyErr.uncaught e) := by
  simp only [generate_args]
  rw [if_neg hw, if_neg (by simp), hn]

/-! ### Counting keys in the `_generate_args` output -/

theorem countKey_gpu_generate (host : Host) (env : Env) (self : CMakeBuildSelf)
    (extdir : String) (ba ca : List String)
    (h : generate_args host env self extdir = Except.ok (ba, ca)) :
    countKey "-DUSE_GPU:STR=" ca = 1 := by
  by_cases hw : host.platform_system = "Windows"
  · rw [generate_args_windows host env self extdir hw] at h
    simp only [Except.ok.injEq, Prod.mk.injEq] at h
    obtain ⟨h1, h2⟩ := h
    subst h2
    simp only [String.append_assoc]
    rw [countKey_append, countKey_append, countKey_gpu_base]
    have hx : countKey "-DUSE_GPU:STR="
        (if 2 ^ 32 < host.sys_maxsize then ["-A", "x64"] else []) = 0 := by
      split <;> simp [countKey_cons, countKey_nil]
    rw [hx]
    simp [countKey_cons, countKey_nil]
  · cases hn : get_n_cpus host.platform_system host.probe with
    | error e =>
        rw [generate_args_posix_err host env self extdir e hw hn] at h
        exact absurd h (by simp)
    | ok n =>
        rw [generate_args_posix_ok host env self extdir n hw hn] at h
        simp only [Except.ok.injEq, Prod.mk.injEq] at h
        obtain ⟨h1, h2⟩ := h
        subst h2
        rw [countKey_append, countKey_gpu_base]
        simp [countKey_cons, countKey_nil]

theorem countKey_opt_generate (host : Host) (env : Env) (self : CMakeBuildSelf)
    (extdir : String) (ba ca : List String)
    (h : generate_args host env self extdir = Except.ok (ba, ca)) :
    countKey "-DOPT_FLAGS=" ca = 0 := by
  by_cases hw : host.platform_system = "Windows"
  · rw [generate_args_windows host env self extdir hw] at h
    simp only [Except.ok.injEq, Prod.mk.injEq] at h
    obtain ⟨h1, h2⟩ := h
    subst h2
    simp only [String.append_assoc]
    rw [countKey_append, countKey_append, countKey_opt_base]
    have hx : countKey "-DOPT_FLAGS="
        (if 2 ^ 32 < host.sys_maxsize then ["-A", "x64"] else []) = 0 := by
      split <;> simp [countKey_cons, countKey_nil]
    rw [hx]
    simp [countKey_cons, countKey_nil]
  · cases hn : get_n_cpus host.platform_system host.probe with
    | error e =>
        rw [generate_args_posix_err host env self extdir e hw hn] at h
        exact absurd h (by simp)
    | ok n =>
        rw [generate_args_posix_ok host env self extdir n hw hn] at h
        simp only [Except.ok.injEq, Prod.mk.injEq] at h
        obtain ⟨h1, h2⟩ := h
        subst h2
        rw [countKey_append, countKey_opt_base]
        simp [countKey_cons, countKey_nil]

theorem countKey_arch_generate (host : Host) (env : Env) (self : CMakeBuildSelf)
    (extdir : String) (ba ca : List String)
    (h : generate_args host env self extdir = Except.ok (ba, ca)) :
    countKey "-A" ca =
      if host.platform_system = "Windows" ∧ 2 ^ 32 < host.sys_maxsize then 1 else 0 := by
  by_cases hw : host.platform_system = "Windows"
  · rw [generate_args_windows host env self extdir hw] at h
    simp only [Except.ok.injEq, Prod.mk.injEq] at h
    obtain ⟨h1, h2⟩ := h
    subst h2
    simp only [String.append_assoc]
    rw [countKey_append, countKey_append, countKey_arch_base]
    by_cases h64 : 2 ^ 32 < host.sys_maxsize
    · rw [if_pos h64, if_pos ⟨hw, h64⟩]
      simp [countKey_cons, countKey_nil]
    · rw [if_neg h64, if_neg (by exact fun hc => h64 hc.2)]
      simp [countKey_cons, countKey_nil]
  · rw [if_neg (by exact fun hc => hw hc.1)]
    cases hn : get_n_cpus host.platform_system host.probe with
    | error e =>
        rw [generate_args_posix_err host env self extdir e hw hn] at h
        exact absurd h (by simp)
    | ok n =>
        rw [generate_args_posix_ok host env self extdir n hw hn] at h
        simp only [Except.ok.injEq, Prod.mk.injEq] at h
        obtain ⟨h1, h2⟩ := h
        subst h2
        rw [countKey_append, countKey_arch_base]
        simp [countKey_cons, countKey_nil]

/-! ### Counting keys across the `build_extension` appends -/

theorem countKey_gpu_extend (self : CMakeBuildSelf) (env : Env) (args : List String) :
    countKey "-DUSE_GPU:STR=" (extend_cmake_args self env args) =
      countKey "-DUSE_GPU:STR=" args + (if pyTruthy env.use_gpu then 1 else 0) := by
  unfold extend_cmake_args
  rw [countKey_append, countKey_append, countKey_append]
  have h1 : countKey "-DUSE_GPU:STR=" (if pyTruthy (resolve_opt_flags self env) then
      ["-DOPT_FLAGS=" ++ (resolve_opt_flags self env).getD ""] else []) = 0 := by
    split <;> simp [countKey_cons, countKey_nil]
  have h2 : countKey "-DUSE_GPU:STR=" (if pyTruthy env.use_gpu then
      ["-DUSE_GPU:STR=" ++ env.use_gpu.getD ""] else []) =
      (if pyTruthy env.use_gpu then 1 else 0) := by
    split <;> simp [countKey_cons, countKey_nil]
  have h3 : countKey "-DUSE_GPU:STR=" (if pyTruthy env.use_omp then
      ["-DUSE_OMP:STR=" ++ env.use_omp.getD ""] else []) = 0 := by
    split <;> simp [countKey_cons, countKey_nil]
  rw [h1, h2, h3]
  simp

theorem countKey_opt_extend (self : CMakeBuildSelf) (env : Env) (args : List String) :
    countKey "-DOPT_FLAGS=" (extend_cmake_args self env args) =
      countKey "-DOPT_FLAGS=" args +
        (if pyTruthy (resolve_opt_flags self env) then 1 else 0) := by
  unfold extend_cmake_args
  rw [countKey_append, countKey_append, countKey_append]
  have h1 : countKey "-DOPT_FLAGS=" (if pyTruthy (resolve_opt_flags self env) then
      ["-DOPT_FLAGS=" ++ (resolve_opt_flags self env).getD ""] else []) =
      (if pyTruthy (resolve_opt_flags self env) then 1 else 0) := by
    split <;> simp [countKey_cons, countKey_nil]
  have h2 : countKey "-DOPT_FLAGS=" (if pyTruthy env.use_gpu then
      ["-DUSE_GPU:STR=" ++ env.use_gpu.getD ""] else []) = 0 := by
    split <;> simp [countKey_cons, countKey_nil]
  have h3 : countKey "-DOPT_FLAGS=" (if pyTruthy env.use_omp then
      ["-DUSE_OMP:STR=" ++ env.use_omp.getD ""] else []) = 0 := by
    split <;> simp [countKey_cons, countKey_nil]
  rw [h1, h2, h3]
  simp

theorem countKey_arch_extend (self : CMakeBuildSelf) (env : Env) (args : List String) :
    countKey "-A" (extend_cmake_args self env args) = countKey "-A" args := by
  unfold extend_cmake_args
  rw [countKey_append, countKey_append, countKey_append]
  have h1 : countKey "-A" (if pyTruthy (resolve_opt_flags self env) then
      ["-DOPT_FLAGS=" ++ (resolve_opt_flags self env).getD ""] else []) = 0 := by
    split <;> simp [countKey_cons, countKey_nil]
  have h2 : countKey "-A" (if pyTruthy env.use_gpu then
      ["-DUSE_GPU:STR=" ++ env.use_gpu.getD ""] else []) = 0 := by
    split <;> simp [countKey_cons, countKey_nil]
  have h3 : countKey "-A" (if pyTruthy env.use_omp then
      ["-DUSE_OMP:STR=" ++ env.use_omp.getD ""] else []) = 0 := by
    split <;> simp [countKey_cons, countKey_nil]
  rw [h1, h2, h3]
  simp

theorem gpu_default_mem_generate (host : Host) (env : Env) (self : CMakeBuildSelf)
    (extdir : String) (ba ca : List String)
    (h : generate_args host env self extdir = Except.ok (ba, ca)) :
    "-DUSE_GPU:STR=No" ∈ ca := by
  by_cases hw : host.platform_system = "Windows"
  · rw [generate_args_windows host env self extdir hw] at h
    simp only [Except.ok.injEq, Prod.mk.injEq] at h
    obtain ⟨h1, h2⟩ := h
    subst h2
    simp [base_cmake_args]
  · cases hn : get_n_cpus host.platform_system host.probe with
    | error e =>
        rw [generate_args_posix_err host env self extdir e hw hn] at h
        exact absurd h (by simp)
    | ok n =>
        rw [generate_args_posix_ok host env self extdir n hw hn] at h
        simp only [Except.ok.injEq, Prod.mk.injEq] at h
        obtain ⟨h1, h2⟩ := h
        subst h2
        simp [base_cmake_args]

/-! ### Concrete fixtures used by counterexamples and witnesses -/

/-- A concrete Linux host whose CPU probe succeeds with output "8\n". -/
def linuxHost : Host :=
  ⟨"Linux", 2 ^ 63 - 1, "/usr/bin/python3", "/work", fun _ => ProcOutcome.success "8\n"⟩

/-- A concrete environment with every variable unset. -/
def emptyEnv : Env := ⟨none, none, none, none, none⟩

/-- The environment of the USE_GPU scenario: only `USE_GPU=Yes` is set. -/
def envGpu : Env := ⟨none, some "Yes", none, none, none⟩

/-- A `CMakeBuild` state with no `--opt-flags` option and `debug` off. -/
def plainSelf : CMakeBuildSelf := ⟨none, false, []⟩

/-- The build arguments `_generate_args` produces on `linuxHost` with
`debug` off. -/
def baLinux : List String := ["--config", "Release", "--", "-j8"]

/-- The cmake arguments `_generate_args` produces on `linuxHost` with no
compiler overrides, `debug` off and `extdir = "/work/ext"`. -/
def caLinux : List String :=
  ["-DCMAKE_ARCHIVE_OUTPUT_DIRECTORY=/work/lib",
   "-DCMAKE_LIBRARY_OUTPUT_DIRECTORY=/work/ext",
   "-DCMAKE_RUNTIME_OUTPUT_DIRECTORY=/work/bin",
   "-DPYTHON_EXECUTABLE=/usr/bin/python3",
   "-DPYTHON_SETUP_FLAG:STR=Yes",
   "-DUSE_GPU:STR=No",
   "-DCMAKE_C_COMPILER=gcc",
   "-DCMAKE_CXX_COMPILER=g++",
   "-DCMAKE_BUILD_TYPE=Release"]

/-- C1, counterexample.  The claim says the full configure-argument list
never contains the same configuration key twice with conflicting values
and that when `USE_GPU` is set it contains at most one flag for that key.
On a Linux host with `USE_GPU=Yes` and no other options,
`_generate_args` emits the fixed default `-DUSE_GPU:STR=No` and
`build_extension` then appends `-DUSE_GPU:STR=Yes`, so the full configure
list carries the `USE_GPU` key twice, with conflicting values. -/
theorem C1_counterexample :
    generate_args linuxHost envGpu plainSelf "/work/ext" = Except.ok (baLinux, caLinux) ∧
    countKey "-DUSE_GPU:STR=" (extend_cmake_args plainSelf envGpu caLinux) = 2 ∧
    "-DUSE_GPU:STR=No" ∈ extend_cmake_args plainSelf envGpu caLinux ∧
    "-DUSE_GPU:STR=Yes" ∈ extend_cmake_args plainSelf envGpu caLinux :=
  ⟨by rfl, by decide, by decide, by decide⟩

/-- C1, amended.  For every host, environment and option set for which
`_generate_args` returns argument lists, the full configure-argument list
(after the `build_extension` appends) contains exactly one flag for the
`USE_GPU` key when the `USE_GPU` environment selector is unset or empty
(the fixed default `-DUSE_GPU:STR=No`), and exactly two flags when the
selector is set non-empty: the fixed default followed, later in the list,
by the environment-sourced flag (so the build tool's last-wins rule picks
the environment value; the values may conflict). -/
theorem C1_use_gpu_key_count (host : Host) (env : Env) (self : CMakeBuildSelf)
    (extdir : String) (ba ca : List String)
    (h : generate_args host env self extdir = Except.ok (ba, ca)) :
    countKey "-DUSE_GPU:STR=" (extend_cmake_args self env ca) =
      (if pyTruthy env.use_gpu then 2 else 1) ∧
    (pyTruthy env.use_gpu = true →
      ∃ l1 l2, extend_cmake_args self env ca =
          l1 ++ ("-DUSE_GPU:STR=" ++ env.use_gpu.getD "") :: l2 ∧
        "-DUSE_GPU:STR=No" ∈ l1) := by
  constructor
  · rw [countKey_gpu_extend, countKey_gpu_generate host env self extdir ba ca h]
    split <;> rfl
  · intro hg
    refine ⟨ca ++ (if pyTruthy (resolve_opt_flags self env) then
        ["-DOPT_FLAGS=" ++ (resolve_opt_flags self env).getD ""] else []),
      (if pyTruthy env.use_omp then ["-DUSE_OMP:STR=" ++ env.use_omp.getD ""] else []),
      ?_, ?_⟩
    · unfold extend_cmake_args
      rw [if_pos hg]
      simp [List.append_assoc]
    · exact List.mem_append_left _ (gpu_default_mem_generate host env self extdir ba ca h)

/-- C1, witness for the amended theorem at the counterexample input. -/
theorem C1_use_gpu_key_count_witness :
    countKey "-DUSE_GPU:STR=" (extend_cmake_args plainSelf envGpu caLinux) = 2 :=
  (C1_use_gpu_key_count linuxHost envGpu plainSelf "/work/ext" baLinux caLinux (by rfl)).1

/-- C2: the claim says the CPU-count probe never raises to its caller for
any outcome of invoking the platform utility (utility missing, invocation
denied, empty command name, non-zero exit, or success).  The code only
catches `PermissionError` — despite its own comment claiming the handler
covers "a case that the command is not available on the machine" — so on a
Linux host whose `nproc` utility is missing (`FileNotFoundError`) or exits
non-zero (`CalledProcessError`) the exception propagates to the caller.
Only a denied invocation is absorbed into the absent value "". -/
theorem C2_probe_raises :
    get_n_cpus "Linux" (fun _ => ProcOutcome.fileNotFound) =
      Except.error ProcOutcome.fileNotFound ∧
    get_n_cpus "Linux" (fun _ => ProcOutcome.calledProcessError 1) =
      Except.error (ProcOutcome.calledProcessError 1) ∧
    get_n_cpus "Linux" (fun _ => ProcOutcome.permissionError) = Except.ok "" :=
  ⟨rfl, rfl, rfl⟩

/-- The environment of the empty-compiler-override scenario:
`C_COMPILER=""` and `CXX_COMPILER=""` are set to the empty string. -/
def envEmptyCompiler : Env := ⟨none, none, none, some "", some ""⟩

/-- A target whose configure and build subprocesses both exit 0. -/
def okTarget : Target := ⟨"qulacs_core", "/src", "/work/ext", 0, 0⟩

/-- C3: the claim says that on a non-Windows host an empty resolved
compiler value makes argument generation raise a fatal error before any
subprocess is spawned, and that an empty-string compiler override is never
passed to the external tool.  The code's guard tests `gcc is None`, which
never holds because `os.getenv("C_COMPILER", "gcc")` returns a string, so
with `C_COMPILER=""` argument generation succeeds, the empty-valued
`-DCMAKE_C_COMPILER=` and `-DCMAKE_CXX_COMPILER=` flags are passed to
cmake, and both subprocesses are spawned. -/
theorem C3_empty_compiler_passed :
    generate_args linuxHost envEmptyCompiler ⟨none, false, [okTarget]⟩ "/work/ext" =
      Except.ok (baLinux,
        ["-DCMAKE_ARCHIVE_OUTPUT_DIRECTORY=/work/lib",
         "-DCMAKE_LIBRARY_OUTPUT_DIRECTORY=/work/ext",
         "-DCMAKE_RUNTIME_OUTPUT_DIRECTORY=/work/bin",
         "-DPYTHON_EXECUTABLE=/usr/bin/python3",
         "-DPYTHON_SETUP_FLAG:STR=Yes",
         "-DUSE_GPU:STR=No",
         "-DCMAKE_C_COMPILER=",
         "-DCMAKE_CXX_COMPILER=",
         "-DCMAKE_BUILD_TYPE=Release"]) ∧
    (build_extension linuxHost envEmptyCompiler ⟨none, false, [okTarget]⟩ okTarget).2 =
      Except.ok () ∧
    (build_extension linuxHost envEmptyCompiler ⟨none, false, [okTarget]⟩ okTarget).1.length
      = 2 :=
  ⟨by rfl, by rfl, by rfl⟩

/-- The `CMakeBuild` state of the empty-explicit-override scenario:
`--opt-flags=` was supplied with an empty value. -/
def emptyOptSelf : CMakeBuildSelf := ⟨some "", false, []⟩

/-- The environment of the opt-flags scenarios: `QULACS_OPT_FLAGS=-O3`. -/
def envOpt : Env := ⟨some "-O3", none, none, none, none⟩

/-- The cmake arguments `_generate_args` produces on `linuxHost` for the
opt-flags scenarios (identical to `caLinux`). -/
def caLinuxOpt : List String := caLinux

/-- C4, counterexample.  The claim says that whenever both an explicit
caller-supplied optimization-flags value and an environment-sourced one
are present, exactly one optimization flag is emitted and it carries the
explicit value.  With the explicit override present but empty
(`--opt-flags=""`) and `QULACS_OPT_FLAGS=-O3` set, the code emits no
optimization flag at all: `opt_flags` resolves to the explicit `""`,
which is falsy, so the `-DOPT_FLAGS=` append is skipped entirely. -/
theorem C4_counterexample :
    generate_args linuxHost envOpt emptyOptSelf "/work/ext" =
      Except.ok (baLinux, caLinuxOpt) ∧
    pyTruthy envOpt.qulacs_opt_flags = true ∧
    emptyOptSelf.opt_flags = some "" ∧
    countKey "-DOPT_FLAGS=" (extend_cmake_args emptyOptSelf envOpt caLinuxOpt) = 0 :=
  ⟨by rfl, by rfl, by rfl, by decide⟩

/-- C4, amended.  For every host, environment and option set for which
`_generate_args` returns argument lists: when the explicit caller-supplied
optimization-flags value is present and non-empty, exactly one
optimization flag is emitted and it carries the explicit value (whatever
the environment holds, in particular when the environment-sourced value is
also present); when the explicit value is present but empty, no
optimization flag is emitted; and when neither source is present (explicit
absent, environment unset or empty), no optimization flag is emitted. -/
theorem C4_opt_flag_resolution (host : Host) (env : Env) (self : CMakeBuildSelf)
    (extdir : String) (ba ca : List String)
    (h : generate_args host env self extdir = Except.ok (ba, ca)) :
    ((∃ v, self.opt_flags = some v ∧ v ≠ "") →
      countKey "-DOPT_FLAGS=" (extend_cmake_args self env ca) = 1 ∧
      ("-DOPT_FLAGS=" ++ self.opt_flags.getD "") ∈ extend_cmake_args self env ca) ∧
    (self.opt_flags = some "" →
      countKey "-DOPT_FLAGS=" (extend_cmake_args self env ca) = 0) ∧
    (self.opt_flags = none → pyTruthy env.qulacs_opt_flags = false →
      countKey "-DOPT_FLAGS=" (extend_cmake_args self env ca) = 0) := by
  refine ⟨?_, ?_, ?_⟩
  · rintro ⟨v, hv, hne⟩
    have hres : resolve_opt_flags self env = some v := by
      unfold resolve_opt_flags
      rw [hv]
      simp
    have htru : pyTruthy (resolve_opt_flags self env) = true := by
      rw [hres]
      simpa [pyTruthy] using hne
    constructor
    · rw [countKey_opt_extend, countKey_opt_generate host env self extdir ba ca h,
        htru]
      rfl
    · unfold extend_cmake_args
      rw [if_pos htru, hres, hv]
      simp
  · intro hv
    have hres : resolve_opt_flags self env = some "" := by
      unfold resolve_opt_flags
      rw [hv]
      simp
    rw [countKey_opt_extend, countKey_opt_generate host env self extdir ba ca h, hres]
    rfl
  · intro hv henv
    have hres : resolve_opt_flags self env = none := by
      unfold resolve_opt_flags
      rw [hv, henv]
      simp
    rw [countKey_opt_extend, countKey_opt_generate host env self extdir ba ca h, hres]
    rfl

/-- C4, witness for the amended theorem: an explicit non-empty override
with the environment value also present yields exactly one flag carrying
the explicit value, and the absent/absent case yields none. -/
theorem C4_opt_flag_resolution_witness :
    countKey "-DOPT_FLAGS="
      (extend_cmake_args ⟨some "-O2", false, []⟩ envOpt caLinux) = 1 ∧
    countKey "-DOPT_FLAGS=" (extend_cmake_args plainSelf emptyEnv caLinux) = 0 :=
  ⟨((C4_opt_flag_resolution linuxHost envOpt ⟨some "-O2", false, []⟩ "/work/ext"
      baLinux caLinux (by rfl)).1 ⟨"-O2", rfl, by decide⟩).1,
   (C4_opt_flag_resolution linuxHost emptyEnv plainSelf "/work/ext"
      baLinux caLinux (by rfl)).2.2 rfl (by rfl)⟩

/-- C5: on every non-Windows host, if the CPU-count probe returns the
absent value (the empty string), the build arguments `_generate_args`
returns end in the bare parallelism token "-j" — the unspecified form that
carries no numeric value (never a malformed token, never a zero or
negative count). -/
theorem C5_parallelism_unspecified (host : Host) (env : Env) (self : CMakeBuildSelf)
    (extdir : String) (hw : ¬host.platform_system = "Windows")
    (habs : get_n_cpus host.platform_system host.probe = Except.ok "") :
    ∃ ca, generate_args host env self extdir =
      Except.ok (["--config", build_config_name self.debug, "--", "-j"], ca) := by
  refine ⟨base_cmake_args host extdir ++
    ["-DCMAKE_C_COMPILER=" ++ env.c_compiler.getD "gcc",
     "-DCMAKE_CXX_COMPILER=" ++ env.cxx_compiler.getD "g++",
     "-DCMAKE_BUILD_TYPE=" ++ build_config_name self.debug], ?_⟩
  rw [generate_args_posix_ok host env self extdir "" hw habs]
  rfl

/-- C5, witness: a Linux host whose probe invocation is denied (the probe
then returns the absent value) yields exactly the unspecified "-j". -/
theorem C5_parallelism_unspecified_witness :
    ∃ ca, generate_args
        ⟨"Linux", 2 ^ 63 - 1, "/usr/bin/python3", "/work",
          fun _ => ProcOutcome.permissionError⟩
        emptyEnv plainSelf "/work/ext" =
      Except.ok (["--config", "Release", "--", "-j"], ca) :=
  C5_parallelism_unspecified _ emptyEnv plainSelf "/work/ext" (by decide) (by rfl)

/-- C6: if the availability check of the external build tool fails because
the tool is unavailable (`subprocess.check_output(["cmake", "--version"])`
raises an `OSError`: `FileNotFoundError` or `PermissionError`), then
`CMakeBuild.run` raises a single `RuntimeError` whose message names every
pending extension target, and zero configure or build subprocesses are
invoked for any target (the recorded step trace is empty). -/
theorem C6_tool_unavailable (tool : ProcOutcome) (host : Host) (env : Env)
    (self : CMakeBuildSelf)
    (h : tool = ProcOutcome.fileNotFound ∨ tool = ProcOutcome.permissionError) :
    CMakeBuild_run tool host env self =
      ([], Except.error (PyErr.runtimeError
        ("CMake must be installed to build the following extensions: " ++
          joinComma (self.extensions.map Target.name)))) := by
  rcases h with h | h <;> subst h <;> rfl

/-- C6, witness: with cmake missing and two pending targets, the run
produces no subprocess steps and the diagnostic names both targets. -/
theorem C6_tool_unavailable_witness :
    CMakeBuild_run ProcOutcome.fileNotFound linuxHost emptyEnv
        ⟨none, false, [okTarget, ⟨"other_ext", "/src2", "/work/ext2", 0, 0⟩]⟩ =
      ([], Except.error (PyErr.runtimeError
        "CMake must be installed to build the following extensions: qulacs_core, other_ext")) :=
  C6_tool_unavailable ProcOutcome.fileNotFound linuxHost emptyEnv
    ⟨none, false, [okTarget, ⟨"other_ext", "/src2", "/work/ext2", 0, 0⟩]⟩ (Or.inl rfl)

/-- C7: for every target, if the configure-step subprocess exits with a
non-zero code, `build_extension` raises the `CalledProcessError` carrying
that exit code (the failure propagates to the caller) and the recorded
step trace contains no build-step invocation. -/
theorem C7_configure_failure_blocks_build (host : Host) (env : Env)
    (self : CMakeBuildSelf) (t : Target) (ba ca : List String)
    (hok : generate_args host env self t.extdir = Except.ok (ba, ca))
    (hcfg : t.configure_exit ≠ 0) :
    (build_extension host env self t).2 =
      Except.error (PyErr.uncaught (ProcOutcome.calledProcessError t.configure_exit)) ∧
    ∀ s ∈ (build_extension host env self t).1, s.isBuild = false := by
  have hbe : build_extension host env self t =
      ([Step.configure (["cmake", t.sourcedir] ++ extend_cmake_args self env ca)],
       Except.error (PyErr.uncaught (ProcOutcome.calledProcessError t.configure_exit))) := by
    unfold build_extension
    rw [hok]
    dsimp only
    rw [if_pos hcfg]
  rw [hbe]
  refine ⟨rfl, ?_⟩
  intro s hs
  simp only [List.mem_singleton] at hs
  subst hs
  rfl

/-- C7, witness: a target whose configure step exits 1 spawns only the
configure subprocess and propagates exit code 1. -/
theorem C7_configure_failure_blocks_build_witness :
    (build_extension linuxHost emptyEnv plainSelf
        ⟨"qulacs_core", "/src", "/work/ext", 1, 0⟩).2 =
      Except.error (PyErr.uncaught (ProcOutcome.calledProcessError 1)) ∧
    ∀ s ∈ (build_extension linuxHost emptyEnv plainSelf
        ⟨"qulacs_core", "/src", "/work/ext", 1, 0⟩).1, s.isBuild = false :=
  C7_configure_failure_blocks_build linuxHost emptyEnv plainSelf
    ⟨"qulacs_core", "/src", "/work/ext", 1, 0⟩ baLinux caLinux (by rfl) (by decide)

/-- A concrete Windows host with a 64-bit pointer width. -/
def winHost : Host :=
  ⟨"Windows", 2 ^ 63 - 1, "C:/python.exe", "C:/work", fun _ => ProcOutcome.fileNotFound⟩

/-- The build arguments `_generate_args` produces on `winHost` with
`debug` off. -/
def baWin : List String := ["--config", "Release", "--", "/m"]

/-- The cmake arguments `_generate_args` produces on `winHost` with
`debug` off and `extdir = "C:/ext"`. -/
def caWin : List String :=
  ["-DCMAKE_ARCHIVE_OUTPUT_DIRECTORY=C:/work/lib",
   "-DCMAKE_LIBRARY_OUTPUT_DIRECTORY=C:/ext",
   "-DCMAKE_RUNTIME_OUTPUT_DIRECTORY=C:/work/bin",
   "-DPYTHON_EXECUTABLE=C:/python.exe",
   "-DPYTHON_SETUP_FLAG:STR=Yes",
   "-DUSE_GPU:STR=No",
   "-DCMAKE_LIBRARY_OUTPUT_DIRECTORY_RELEASE=C:/ext",
   "-DCMAKE_RUNTIME_OUTPUT_DIRECTORY_RELEASE=C:/ext",
   "-A", "x64"]

/-- C8: on a Windows-family host whose pointer width indicates a 64-bit
address space (`sys.maxsize > 2**32`), the 64-bit architecture flag
appears exactly once in the full configure arguments — as the adjacent
token pair `-A x64`; on every non-Windows family it never appears,
regardless of host pointer width. -/
theorem C8_arch_flag (host : Host) (env : Env) (self : CMakeBuildSelf)
    (extdir : String) (ba ca : List String)
    (h : generate_args host env self extdir = Except.ok (ba, ca)) :
    (host.platform_system = "Windows" → 2 ^ 32 < host.sys_maxsize →
      countKey "-A" (extend_cmake_args self env ca) = 1 ∧
      ∃ l1 l2, extend_cmake_args self env ca = l1 ++ "-A" :: "x64" :: l2) ∧
    (host.platform_system ≠ "Windows" →
      countKey "-A" (extend_cmake_args self env ca) = 0) := by
  constructor
  · intro hw h64
    constructor
    · rw [countKey_arch_extend, countKey_arch_generate host env self extdir ba ca h,
        if_pos ⟨hw, h64⟩]
    · rw [generate_args_windows host env self extdir hw] at h
      simp only [Except.ok.injEq, Prod.mk.injEq] at h
      obtain ⟨h1, h2⟩ := h
      subst h2
      unfold extend_cmake_args
      refine ⟨base_cmake_args host extdir ++
        ["-DCMAKE_LIBRARY_OUTPUT_DIRECTORY_" ++ strUpper (build_config_name self.debug)
           ++ "=" ++ extdir,
         "-DCMAKE_RUNTIME_OUTPUT_DIRECTORY_" ++ strUpper (build_config_name self.debug)
           ++ "=" ++ extdir],
        (if pyTruthy (resolve_opt_flags self env) then
            ["-DOPT_FLAGS=" ++ (resolve_opt_flags self env).getD ""] else []) ++
        (if pyTruthy env.use_gpu then
            ["-DUSE_GPU:STR=" ++ env.use_gpu.getD ""] else []) ++
        (if pyTruthy env.use_omp then
            ["-DUSE_OMP:STR=" ++ env.use_omp.getD ""] else []), ?_⟩
      rw [if_pos h64]
      simp [List.append_assoc]
  · intro hw
    rw [countKey_arch_extend, countKey_arch_generate host env self extdir ba ca h,
      if_neg (fun hc => hw hc.1)]

/-- C8, witness: the 64-bit Windows host carries the flag once; the Linux
host never. -/
theorem C8_arch_flag_witness :
    (countKey "-A" (extend_cmake_args plainSelf emptyEnv caWin) = 1 ∧
      ∃ l1 l2, extend_cmake_args plainSelf emptyEnv caWin = l1 ++ "-A" :: "x64" :: l2) ∧
    countKey "-A" (extend_cmake_args plainSelf emptyEnv caLinux) = 0 :=
  ⟨(C8_arch_flag winHost emptyEnv plainSelf "C:/ext" baWin caWin (by rfl)).1
      rfl (by decide),
   (C8_arch_flag linuxHost emptyEnv plainSelf "/work/ext" baLinux caLinux (by rfl)).2
      (by decide)⟩

/-- C9: whenever `_generate_args` returns argument lists, the resolved
build-configuration name (the value following "--config" in the build
arguments) is `build_config_name self.debug`, which is "Debug" exactly
when the debug option is true and "Release" exactly when it is false; and
argument generation, being a pure function, yields the identical result on
repeated calls with identical inputs. -/
theorem C9_build_config (host : Host) (env : Env) (self : CMakeBuildSelf)
    (extdir : String) (ba ca : List String)
    (h : generate_args host env self extdir = Except.ok (ba, ca)) :
    ba[1]? = some (build_config_name self.debug) ∧
    (self.debug = true → build_config_name self.debug = "Debug") ∧
    (self.debug = false → build_config_name self.debug = "Release") ∧
    generate_args host env self extdir = generate_args host env self extdir := by
  refine ⟨?_, fun hd => by rw [hd]; rfl, fun hd => by rw [hd]; rfl, rfl⟩
  by_cases hw : host.platform_system = "Windows"
  · rw [generate_args_windows host env self extdir hw] at h
    simp only [Except.ok.injEq, Prod.mk.injEq] at h
    obtain ⟨h1, h2⟩ := h
    rw [← h1]
    rfl
  · cases hn : get_n_cpus host.platform_system host.probe with
    | error e =>
        rw [generate_args_posix_err host env self extdir e hw hn] at h
        exact absurd h (by simp)
    | ok n =>
        rw [generate_args_posix_ok host env self extdir n hw hn] at h
        simp only [Except.ok.injEq, Prod.mk.injEq] at h
        obtain ⟨h1, h2⟩ := h
        rw [← h1]
        rfl

/-- C9, witness: with the debug option off the resolved configuration name
in the build arguments is "Release". -/
theorem C9_build_config_witness : baLinux[1]? = some "Release" :=
  (C9_build_config linuxHost emptyEnv plainSelf "/work/ext" baLinux caLinux (by rfl)).1

/-- C10: when the explicit optimization-flags override is present but
empty (`--opt-flags=""`), no optimization flag is emitted and the
environment-sourced value is ignored entirely, for every value of the
`QULACS_OPT_FLAGS` environment variable: the present-but-empty explicit
override blocks the environment fallback rather than deferring to it. -/
theorem C10_empty_override_blocks_env (host : Host) (env : Env)
    (self : CMakeBuildSelf) (extdir : String) (ba ca : List String)
    (hopt : self.opt_flags = some "")
    (h : generate_args host env self extdir = Except.ok (ba, ca)) :
    countKey "-DOPT_FLAGS=" (extend_cmake_args self env ca) = 0 := by
  have hres : resolve_opt_flags self env = some "" := by
    unfold resolve_opt_flags
    rw [hopt]
    simp
  rw [countKey_opt_extend, countKey_opt_generate host env self extdir ba ca h, hres]
  rfl

/-- C10, witness: the empty explicit override with `QULACS_OPT_FLAGS=-O3`
set yields no optimization flag. -/
theorem C10_empty_override_blocks_env_witness :
    countKey "-DOPT_FLAGS=" (extend_cmake_args emptyOptSelf envOpt caLinux) = 0 :=
  C10_empty_override_blocks_env linuxHost envOpt emptyOptSelf "/work/ext" baLinux caLinux
    rfl (by rfl)
